import Mathlib

/-
Verification development for the DNS query-assembly, transport-selection and
PTR-enrichment core of a command-line DNS lookup tool.

The Go sources embedded here are:
  * resolver.go : createQuery (query construction with EDNS0 options) and
    newTransport (transport selection);
  * the output package : Entry and Entry.LoadPTRs (reverse-lookup enrichment).

Machine integers are modelled as Nat/Int with explicit reductions modulo
2^w where the Go code performs a conversion.  Fallible operations return
Option/Except; log.Fatalf and runtime panics are modelled as abnormal
results.
-/

set_option autoImplicit false

/-! ## Character and string helpers (models of Go stdlib behavior) -/

/-- Whitespace recognised by Go's strings.TrimSpace for Latin-1 input
(unicode.IsSpace; space characters beyond Latin-1 do not occur in the
inputs considered here). -/
def isGoSpace (c : Char) : Bool :=
  c == ' ' || c == '\t' || c == '\n' || c == '\x0b' || c == '\x0c' || c == '\r' ||
  c == '\u0085' || c == '\u00A0'

/-- Model of Go's strings.TrimSpace. -/
def goTrimSpace (s : String) : String :=
  String.mk (((s.toList.dropWhile isGoSpace).reverse.dropWhile isGoSpace).reverse)

/-- Split a character list at the first occurrence of `c`; `none` when `c`
does not occur.  Used to model strings.SplitN(s, sep, 2) and the '/' split
of net.ParseCIDR. -/
def breakAtFirst (c : Char) : List Char → Option (List Char × List Char)
  | [] => none
  | x :: xs =>
    if x == c then some ([], xs)
    else match breakAtFirst c xs with
      | none => none
      | some (a, b) => some (x :: a, b)

/-- Model of Go's strings.SplitN(s, ":", 2). -/
def goSplitN2Colon (s : String) : List String :=
  match breakAtFirst ':' s.toList with
  | none => [s]
  | some (a, b) => [String.mk a, String.mk b]

/-- Split a character list on every occurrence of `c` (like strings.Split
for a one-character separator). -/
def splitOnChar (c : Char) : List Char → List (List Char)
  | [] => [[]]
  | x :: xs =>
    if x == c then [] :: splitOnChar c xs
    else match splitOnChar c xs with
      | r :: rs => (x :: r) :: rs
      | [] => [[x]]

/-- Prefix test on character lists (model of strings.HasPrefix). -/
def listHasPrefix : List Char → List Char → Bool
  | [], _ => true
  | _ :: _, [] => false
  | p :: ps, x :: xs => p == x && listHasPrefix ps xs

/-- Model of Go's strings.HasPrefix. -/
def goHasPrefix (s pre : String) : Bool :=
  listHasPrefix pre.toList s.toList

/-! ## Go net package model: IP parsing, To4, CIDR parsing

resolver.go calls net.ParseCIDR on the client-subnet string and
net.IP.To4 on the parsed address; these stdlib functions are modelled
faithfully (Go ≥ 1.17 semantics: leading zeros in dotted-decimal fields
are rejected).  IP addresses are byte lists; a parsed IPv4 address is
returned in Go's 16-byte IPv4-in-IPv6 mapped form, as net.ParseCIDR does. -/

/-- One dotted-decimal field: 1-3 digits, value ≤ 255, no leading zero. -/
def parseIPv4Field (l : List Char) : Option Nat :=
  if l.isEmpty then none
  else if !(l.all Char.isDigit) then none
  else if l.length > 1 && l.headD 'x' == '0' then none
  else if l.length > 3 then none
  else
    let v := l.foldl (fun acc c => acc * 10 + (c.toNat - 48)) 0
    if v ≤ 255 then some v else none

/-- Dotted-quad IPv4 parse, producing the 4 address bytes. -/
def parseIPv4Bytes (l : List Char) : Option (List Nat) :=
  match splitOnChar '.' l with
  | [a, b, c, d] => do
    let va ← parseIPv4Field a
    let vb ← parseIPv4Field b
    let vc ← parseIPv4Field c
    let vd ← parseIPv4Field d
    some [va, vb, vc, vd]
  | _ => none

/-- The 12-byte prefix of Go's 16-byte representation of an IPv4 address. -/
def v4InV6Prefix : List Nat := [0, 0, 0, 0, 0, 0, 0, 0, 0, 0, 255, 255]

/-- Model of Go's parseIPv4 as used by net.ParseCIDR: a successful parse
yields the 16-byte mapped form. -/
def parseIPv4 (l : List Char) : Option (List Nat) :=
  (parseIPv4Bytes l).map (fun bs => v4InV6Prefix ++ bs)

def hexDigitVal (c : Char) : Option Nat :=
  if c.isDigit then some (c.toNat - 48)
  else if 'a' ≤ c && c ≤ 'f' then some (c.toNat - 87)
  else if 'A' ≤ c && c ≤ 'F' then some (c.toNat - 55)
  else none

def parseHexGroupAux : List Char → Nat → Option Nat
  | [], acc => some acc
  | c :: rest, acc =>
    match hexDigitVal c with
    | none => none
    | some v => parseHexGroupAux rest (acc * 16 + v)

/-- One 16-bit hexadecimal group of an IPv6 address: 1-4 hex digits. -/
def parseHexGroup (l : List Char) : Option Nat :=
  if l.isEmpty || l.length > 4 then none else parseHexGroupAux l 0

/-- Split at the first "::"; at most one may occur. -/
def splitOnDoubleColon : List Char → List (List Char)
  | [] => [[]]
  | ':' :: ':' :: rest => [] :: splitOnDoubleColon rest
  | c :: rest =>
    match splitOnDoubleColon rest with
    | r :: rs => (c :: r) :: rs
    | [] => [[c]]

/-- Bytes of one side of an IPv6 address; an embedded dotted-quad IPv4
address is accepted only as the final group of the whole address. -/
def ipv6SideBytes : Bool → List (List Char) → Option (List Nat)
  | _, [] => some []
  | allowV4, [g] =>
    (match parseHexGroup g with
     | some v => some [v / 256, v % 256]
     | none => if allowV4 then parseIPv4Bytes g else none)
  | allowV4, g :: rest => do
    let v ← parseHexGroup g
    let bs ← ipv6SideBytes allowV4 rest
    some ([v / 256, v % 256] ++ bs)

/-- Groups of one side of an IPv6 address; an empty side has no groups. -/
def ipv6SideGroups (l : List Char) : List (List Char) :=
  if l.isEmpty then [] else splitOnChar ':' l

/-- Model of Go's IPv6 textual-address parse (zones are rejected, as
net.ParseCIDR rejects zoned addresses). -/
def parseIPv6 (l : List Char) : Option (List Nat) :=
  if l.contains '%' then none
  else match splitOnDoubleColon l with
  | [whole] => do
    let bs ← ipv6SideBytes true (splitOnChar ':' whole)
    if bs.length = 16 then some bs else none
  | [left, right] => do
    let lb ← ipv6SideBytes false (ipv6SideGroups left)
    let rb ← ipv6SideBytes true (ipv6SideGroups right)
    if lb.length + rb.length ≤ 14 then
      some (lb ++ List.replicate (16 - lb.length - rb.length) 0 ++ rb)
    else none
  | _ => none

/-- Decimal parse of the CIDR prefix part (Go's dtoi: digits only,
leading zeros tolerated). -/
def parseDecimalAll (l : List Char) : Option Nat :=
  if l.isEmpty then none
  else if !(l.all Char.isDigit) then none
  else some (l.foldl (fun acc c => acc * 10 + (c.toNat - 48)) 0)

/-- Model of net.ParseCIDR: returns the parsed address bytes and the
prefix length obtained from ipNet.Mask.Size().  The address is the
16-byte form for both families (IPv4 in mapped form). -/
def parseAddrBits (addrCs : List Char) : Option (List Nat × Nat) :=
  match parseIPv4 addrCs with
  | some ip => some (ip, 32)
  | none =>
    match parseIPv6 addrCs with
    | some ip => some (ip, 128)
    | none => none

def parseCIDR (s : String) : Option (List Nat × Nat) :=
  match breakAtFirst '/' s.toList with
  | none => none
  | some (addrCs, maskCs) =>
    match parseAddrBits addrCs with
    | none => none
    | some (ip, bits) =>
      match parseDecimalAll maskCs with
      | none => none
      | some n => if n ≤ bits then some (ip, n) else none

/-- Model of Go's net.IP.To4: a 4-byte address is returned unchanged, a
16-byte IPv4-mapped address yields its final 4 bytes, anything else nil. -/
def goTo4 (addr : List Nat) : Option (List Nat) :=
  if addr.length = 4 then some addr
  else match addr with
    | [0, 0, 0, 0, 0, 0, 0, 0, 0, 0, 255, 255, a, b, c, d] => some [a, b, c, d]
    | _ => none

/-! ## DNS message model (miekg/dns subset used by resolver.go and LoadPTRs) -/

structure DNSQuestion where
  Name : String
  Qtype : Nat
  Qclass : Nat
  deriving DecidableEq

/-- EDNS0 options appended to the OPT record by createQuery. -/
inductive EDNS0Opt where
  | nsid
  | padding (pad : List Nat)
  | subnet (family : Nat) (sourceNetmask : Nat) (sourceScope : Nat) (address : List Nat)
  | cookie (c : String)
  deriving DecidableEq

/-- The OPT pseudo-record: its header class carries the advertised UDP
buffer size and the DO bit lives in the header TTL (modelled as doBit). -/
structure OPTRecord where
  Class : Nat
  doBit : Bool
  options : List EDNS0Opt
  deriving DecidableEq

/-- Resource records as far as this core inspects them: A and AAAA carry
their address bytes, PTR its target name, OPT its pseudo-record; every
other record only matters through its type code. -/
inductive DNSRR where
  | a (addr : List Nat)
  | aaaa (addr : List Nat)
  | ptr (target : String)
  | opt (o : OPTRecord)
  | other (rrtype : Nat)
  deriving DecidableEq

structure Msg where
  Id : Nat
  Authoritative : Bool
  AuthenticatedData : Bool
  CheckingDisabled : Bool
  RecursionDesired : Bool
  RecursionAvailable : Bool
  Zero : Bool
  Truncated : Bool
  Question : List DNSQuestion
  Answer : List DNSRR
  Extra : List DNSRR
  deriving DecidableEq

/-- The zero value dns.Msg{}. -/
def emptyMsg : Msg :=
  { Id := 0, Authoritative := false, AuthenticatedData := false,
    CheckingDisabled := false, RecursionDesired := false,
    RecursionAvailable := false, Zero := false, Truncated := false,
    Question := [], Answer := [], Extra := [] }

/-- Wire length of an owner name (no escape sequences: each label byte is
one character, plus one length byte per label and the root byte, which for
a normal fully-qualified name is string length + 1; the root name "." is a
single byte). -/
def wireNameLen (s : String) : Nat :=
  if s = "." then 1 else s.length + 1

/-- Wire length of one EDNS0 option's data (option code and length add 4
more bytes, counted by the caller).  NSID requests are empty; padding
contributes its padding bytes; client-subnet packs family (2), source and
scope netmasks (1 each) and ceil(sourceNetmask/8) address bytes; the
cookie is a hex string packing to half its length. -/
def edns0OptDataLen : EDNS0Opt → Nat
  | .nsid => 0
  | .padding p => p.length
  | .subnet _ srcMask _ _ => 4 + (srcMask + 7) / 8
  | .cookie c => c.length / 2

/-- Wire length of a resource record as it occurs in the messages built
here: only OPT records appear in the additional section of a query, and
the messages measured by this program carry no other records, so the
remaining record forms are given length 0. -/
def rrWireLen : DNSRR → Nat
  | .opt o => wireNameLen "." + 10 + (o.options.map (fun x => 4 + edns0OptDataLen x)).sum
  | _ => 0

/-- Model of dns.Msg.Len() for the messages this program constructs:
12-byte header, question entries (name + type + class), and record
sections.  Name compression never applies to these messages (one question
name, OPT owner is the root). -/
def msgWireLen (m : Msg) : Nat :=
  12 + (m.Question.map (fun q => wireNameLen q.Name + 4)).sum
     + (m.Answer.map rrWireLen).sum
     + (m.Extra.map rrWireLen).sum

/-- Count of trailing-backslash characters at the head of a list (helper
for dns.IsFqdn's escaped-dot rule). -/
def countLeadingBackslashes : List Char → Nat
  | [] => 0
  | c :: rest => if c == '\\' then countLeadingBackslashes rest + 1 else 0

/-- Model of dns.IsFqdn: the name ends in an unescaped dot. -/
def goIsFqdn (s : String) : Bool :=
  match s.toList.reverse with
  | [] => false
  | c :: rest => c == '.' && countLeadingBackslashes rest % 2 == 0

/-- Model of dns.Fqdn. -/
def fqdn (s : String) : String :=
  if goIsFqdn s then s else s ++ "."

/-- Go conversion uint16(x) for an int operand. -/
def goUInt16OfInt (i : Int) : Nat :=
  (i % 65536).toNat

/-! ## cli.Flags (the resolved options consumed by resolver.go) -/

structure Flags where
  Name : String
  Class : Nat
  ID : Int
  AuthoritativeAnswer : Bool
  AuthenticData : Bool
  CheckingDisabled : Bool
  RecursionDesired : Bool
  RecursionAvailable : Bool
  Zero : Bool
  Truncated : Bool
  DNSSEC : Bool
  NSID : Bool
  Pad : Bool
  ClientSubnet : String
  Cookie : String
  UDPBuffer : Nat
  ReuseConn : Bool
  ODoHProxy : String
  HTTPHeaders : List String
  HTTPUserAgent : String
  HTTPMethod : String
  HTTP2 : Bool
  HTTP3 : Bool
  PMTUD : Bool
  QUICALPNTokens : List String
  QUICLengthPrefix : Bool
  DNSCryptTCP : Bool
  DNSCryptUDPSize : Nat
  DNSCryptPublicKey : String
  DNSCryptProvider : String
  Timeout : Nat
  deriving DecidableEq

/-- All-zero flags value used as the base of concrete test inputs. -/
def defaultFlags : Flags :=
  { Name := "", Class := 0, ID := 0,
    AuthoritativeAnswer := false, AuthenticData := false,
    CheckingDisabled := false, RecursionDesired := false,
    RecursionAvailable := false, Zero := false, Truncated := false,
    DNSSEC := false, NSID := false, Pad := false,
    ClientSubnet := "", Cookie := "", UDPBuffer := 0,
    ReuseConn := false, ODoHProxy := "", HTTPHeaders := [],
    HTTPUserAgent := "", HTTPMethod := "", HTTP2 := false, HTTP3 := false,
    PMTUD := false, QUICALPNTokens := [], QUICLengthPrefix := false,
    DNSCryptTCP := false, DNSCryptUDPSize := 0,
    DNSCryptPublicKey := "", DNSCryptProvider := "", Timeout := 0 }

/-! ## createQuery (resolver.go lines 17-116) -/

/-- The gate of resolver.go line 37: an OPT record is built exactly when
one of these five option fields is set. -/
def edns0Requested (opts : Flags) : Bool :=
  opts.DNSSEC || opts.NSID || opts.Pad ||
  !(opts.ClientSubnet == "") || !(opts.Cookie == "")

/-- The padding computation of resolver.go lines 59-68, in Go int
arithmetic: round msgLen up to the next multiple of 128, truncating the
padding to the remaining UDP-buffer headroom and stopping at zero. -/
def goPadCompute (msgLen buf : Nat) : Nat :=
  let ml : Int := msgLen
  let p0 : Int := 128 - ml % 128
  let p1 : Int := if ml + p0 > (buf : Int) then (buf : Int) - ml else p0
  (if p1 < 0 then 0 else p1).toNat

/-- The client-subnet block of resolver.go lines 75-94: nothing when the
option is unset, a fatal configuration error (none) when the CIDR does not
parse, otherwise the EDNS0 subnet option: family 1 unless the parsed
address is not representable in 4 bytes (then 2), source netmask from the
prefix length through uint8 conversion, scope netmask zero. -/
def subnetOption (opts : Flags) : Option (Option EDNS0Opt) :=
  if opts.ClientSubnet == "" then some none
  else match parseCIDR opts.ClientSubnet with
    | none => none
    | some (ip, mask) =>
      some (some (.subnet (if (goTo4 ip).isSome then 1 else 2) (mask % 256) 0 ip))

/-- The OPT-record construction of resolver.go lines 37-105 for a message
whose serialized length is msgLen at the time padding is computed.
Result: none models log.Fatalf on an unparseable client subnet;
some none means no OPT record is attached; some (some o) attaches o.
Options are appended in source order: NSID, padding, client subnet,
cookie. -/
def buildOptRecord (opts : Flags) (msgLen : Nat) : Option (Option OPTRecord) :=
  if edns0Requested opts then
    match subnetOption opts with
    | none => none
    | some subOpt =>
      let options : List EDNS0Opt :=
        (if opts.NSID then [EDNS0Opt.nsid] else [])
        ++ (if opts.Pad then
              [EDNS0Opt.padding (List.replicate (goPadCompute msgLen opts.UDPBuffer) 0)]
            else [])
        ++ (match subOpt with | some so => [so] | none => [])
        ++ (if opts.Cookie == "" then [] else [EDNS0Opt.cookie opts.Cookie])
      some (some { Class := opts.UDPBuffer, doBit := opts.DNSSEC, options := options })
  else some none

/-- The loop body and recursion of createQuery.  The loop counter i
numbers the dns.Id() draws: each iteration with an unset caller ID takes
one fresh value from the random stream rng.  The padding length is
computed from req.Len() measured on the message as it exists at that
point of the source: header flags only, the question and the OPT record
are attached afterwards. -/
def createQueryGo (opts : Flags) (rng : Nat → Nat) : Nat → List Nat → Option (List Msg)
  | _, [] => some []
  | i, qType :: rest =>
    let req0 : Msg :=
      { emptyMsg with
        Id := if opts.ID != -1 then goUInt16OfInt opts.ID else rng i % 65536,
        Authoritative := opts.AuthoritativeAnswer,
        AuthenticatedData := opts.AuthenticData,
        CheckingDisabled := opts.CheckingDisabled,
        RecursionDesired := opts.RecursionDesired,
        RecursionAvailable := opts.RecursionAvailable,
        Zero := opts.Zero,
        Truncated := opts.Truncated }
    match buildOptRecord opts (msgWireLen req0) with
    | none => none
    | some optRec =>
      let req1 : Msg :=
        { req0 with
          Extra := (match optRec with | some o => [DNSRR.opt o] | none => []),
          Question := [⟨fqdn opts.Name, qType, opts.Class⟩] }
      match createQueryGo opts rng (i + 1) rest with
      | none => none
      | some qs => some (req1 :: qs)

/-- createQuery (resolver.go line 17): one query per requested record
type, in order.  none models a log.Fatalf abort (unparseable client
subnet). -/
def createQuery (opts : Flags) (rrTypes : List Nat) (rng : Nat → Nat) : Option (List Msg) :=
  createQueryGo opts rng 0 rrTypes

/-- The OPT records found in a message's additional section. -/
def optRecords (m : Msg) : List OPTRecord :=
  m.Extra.filterMap fun rr => match rr with | .opt o => some o | _ => none

/-- Whether a query carries an additional-section OPT record. -/
def hasOPT (m : Msg) : Bool :=
  !(optRecords m).isEmpty

/-- The lengths of the padding options inside an OPT record. -/
def paddingLens (o : OPTRecord) : List Nat :=
  o.options.filterMap fun x => match x with | .padding p => some p.length | _ => none

/-- The client-subnet options inside an OPT record. -/
def subnetOptions (o : OPTRecord) : List EDNS0Opt :=
  o.options.filter fun x => match x with | .subnet _ _ _ _ => true | _ => false

/-! ## newTransport (resolver.go lines 118-223) -/

/-- transport.Common: fields shared by every transport variant. -/
structure Common where
  Server : String
  ReuseConn : Bool
  deriving DecidableEq

/-- The only field of the TLS configuration this core reads or writes:
QUIC clones the configuration and overrides its ALPN protocol list. -/
structure TLSConf where
  NextProtos : List String
  deriving DecidableEq

/-- transport.Type, the protocol selector of the switch in newTransport;
an unrecognised tag falls to the default branch. -/
inductive TransportType where
  | http
  | dnscrypt
  | quic
  | tls
  | tcp
  | plain
  | other (tag : String)
  deriving DecidableEq

structure HTTPTransport where
  Common : Common
  TLSConfig : TLSConf
  UserAgent : String
  Method : String
  HTTP2 : Bool
  HTTP3 : Bool
  NoPMTUd : Bool
  Headers : List (String × String)
  deriving DecidableEq

structure ODoHTransport where
  Common : Common
  Proxy : String
  TLSConfig : TLSConf
  deriving DecidableEq

structure DNSCryptTransport where
  Common : Common
  ServerStamp : String
  TCP : Bool
  UDPSize : Nat
  PublicKey : String
  ProviderName : String
  deriving DecidableEq

structure QUICTransport where
  Common : Common
  TLSConfig : TLSConf
  PMTUD : Bool
  AddLengthPrefix : Bool
  deriving DecidableEq

structure TLSTransport where
  Common : Common
  TLSConfig : TLSConf
  deriving DecidableEq

structure PlainTransport where
  Common : Common
  PreferTCP : Bool
  UDPBuffer : Nat
  Timeout : Nat
  deriving DecidableEq

/-- The transport variants newTransport can construct. -/
inductive Transport where
  | http (t : HTTPTransport)
  | odoh (t : ODoHTransport)
  | dnscrypt (t : DNSCryptTransport)
  | quic (t : QUICTransport)
  | tls (t : TLSTransport)
  | plain (t : PlainTransport)
  deriving DecidableEq

/-- The HTTP header-string parse of resolver.go lines 140-151: split each
string on the first colon, trim whitespace on both sides, drop entries
without a colon (warning only).  The successful name/value pairs are
listed in the order they are added to the headers map. -/
def parseHeaders : List String → List (String × String)
  | [] => []
  | h :: rest =>
    match goSplitN2Colon h with
    | [nm, v] => (goTrimSpace nm, goTrimSpace v) :: parseHeaders rest
    | _ => parseHeaders rest

/-- newTransport (resolver.go line 119): map the protocol tag and options
to a ready transport, or fail on an unknown tag. -/
def newTransport (server : String) (transportType : TransportType) (tlsConfig : TLSConf)
    (o : Flags) : Except String Transport :=
  let common : Common := { Server := server, ReuseConn := o.ReuseConn }
  match transportType with
  | .http =>
    if !(o.ODoHProxy == "") then
      Except.ok (.odoh { Common := common, Proxy := o.ODoHProxy, TLSConfig := tlsConfig })
    else
      Except.ok (.http
        { Common := common, TLSConfig := tlsConfig,
          UserAgent := o.HTTPUserAgent, Method := o.HTTPMethod,
          HTTP2 := o.HTTP2, HTTP3 := o.HTTP3,
          NoPMTUd := !o.PMTUD, Headers := parseHeaders o.HTTPHeaders })
  | .dnscrypt =>
    if goHasPrefix server "sdns://" then
      Except.ok (.dnscrypt
        { Common := common, ServerStamp := server,
          TCP := o.DNSCryptTCP, UDPSize := o.DNSCryptUDPSize,
          PublicKey := "", ProviderName := "" })
    else
      Except.ok (.dnscrypt
        { Common := common, ServerStamp := "",
          TCP := o.DNSCryptTCP, UDPSize := o.DNSCryptUDPSize,
          PublicKey := o.DNSCryptPublicKey, ProviderName := o.DNSCryptProvider })
  | .quic =>
    Except.ok (.quic
      { Common := common,
        TLSConfig := { tlsConfig with NextProtos := o.QUICALPNTokens },
        PMTUD := o.PMTUD, AddLengthPrefix := o.QUICLengthPrefix })
  | .tls =>
    Except.ok (.tls { Common := common, TLSConfig := tlsConfig })
  | .tcp =>
    Except.ok (.plain
      { Common := common, PreferTCP := true,
        UDPBuffer := o.UDPBuffer, Timeout := o.Timeout })
  | .plain =>
    Except.ok (.plain
      { Common := common, PreferTCP := false,
        UDPBuffer := o.UDPBuffer, Timeout := o.Timeout })
  | .other tag =>
    Except.error ("unknown transport protocol " ++ tag)

/-! ## Entry and LoadPTRs (output package) -/

/-- Entry stores the replies from one server.  Replies slots are nil-able
(per-message transport failure); PTRs is the IP → PTR cache (none models
the nil map before LoadPTRs initialises it); existingRRs models the
map[string]bool set field by its key set. -/
structure Entry where
  Queries : List Msg
  Replies : List (Option Msg)
  Server : String
  Time : Nat
  PTRs : Option (List (String × String))
  existingRRs : List String
  deriving DecidableEq

/-- The single capability LoadPTRs needs from a transport:
Exchange(query) -> (reply, error); the reply pointer may be nil even
without an error. -/
def ExchangeFn : Type := Msg → Except String (Option Msg)

/-- Abnormal terminations of LoadPTRs: dereferencing a nil reply, the
unchecked *dns.PTR type assertion failing, and log.Fatalf on a
reverse-address failure. -/
inductive PanicKind where
  | nilReply
  | assertPTR
  | fatalReverseAddr
  deriving DecidableEq

def TypePTR : Nat := 12
def ClassINET : Nat := 1

/-- Go map assignment m[k] = v on an association-list model. -/
def mapInsert : List (String × String) → String → String → List (String × String)
  | [], k, v => [(k, v)]
  | (k0, v0) :: rest, k, v =>
    if k0 == k then (k0, v) :: rest else (k0, v0) :: mapInsert rest k v

/-- Decimal rendering of one address byte. -/
def byteDecStr (b : Nat) : String :=
  Nat.repr (b % 256)

/-- Join strings with a dot separator. -/
def joinWithDot : List String → String
  | [] => ""
  | [x] => x
  | x :: xs => x ++ "." ++ joinWithDot xs

/-- The 16-bit groups of a 16-byte IPv6 address. -/
def groupsOfBytes : List Nat → List Nat
  | a :: b :: rest => ((a % 256) * 256 + b % 256) :: groupsOfBytes rest
  | _ => []

/-- Length of the zero-group run starting at the head. -/
def zeroRunAt : List Nat → Nat
  | [] => 0
  | g :: gs => if g = 0 then zeroRunAt gs + 1 else 0

/-- Leftmost longest run of at least two zero groups (Go's "::"
compression rule), as (start, length). -/
def bestZeroRun (gs : List Nat) : Option (Nat × Nat) :=
  (List.range gs.length).foldl
    (fun best i =>
      let l := zeroRunAt (gs.drop i)
      match best with
      | some (_, bl) => if l > bl then some (i, l) else best
      | none => if l ≥ 2 then some (i, l) else none)
    none

/-- Lowercase hexadecimal rendering without leading zeros. -/
def hexStr (n : Nat) : String :=
  String.mk (Nat.toDigits 16 n)

/-- Join strings with a colon separator. -/
def joinColon : List String → String
  | [] => ""
  | [x] => x
  | x :: xs => x ++ ":" ++ joinColon xs

/-- Go's canonical textual form of a 16-byte IPv6 address that is not
4-byte-representable: hexadecimal groups with the leftmost longest run of
two or more zero groups compressed to "::". -/
def ipv6String (addr : List Nat) : String :=
  let gs := groupsOfBytes addr
  match bestZeroRun gs with
  | none => joinColon (gs.map hexStr)
  | some (s, l) =>
    joinColon ((gs.take s).map hexStr) ++ "::" ++ joinColon ((gs.drop (s + l)).map hexStr)

/-- Model of net.IP.String() as applied to the A/AAAA record addresses in
LoadPTRs: dotted quad whenever the address is 4-byte-representable,
canonical IPv6 text for other 16-byte addresses, and Go's "?"-prefixed
fallback (never a valid IP) for invalid lengths. -/
def ipToString (addr : List Nat) : String :=
  match goTo4 addr with
  | some bs => joinWithDot (bs.map byteDecStr)
  | none => if addr.length = 16 then ipv6String addr else "?"

/-- The nibble labels of a 16-byte address in reverse order, low nibble
of the last byte first (dns.ReverseAddr's ip6.arpa form). -/
def v6Nibbles : List Nat → List String
  | [] => []
  | b :: rest =>
    v6Nibbles rest ++ [String.mk [Nat.digitChar (b % 256 % 16)], String.mk [Nat.digitChar (b % 256 / 16)]]

/-- The in-addr.arpa reverse name of 4 address bytes. -/
def reverseIPv4Name (bs : List Nat) : String :=
  joinWithDot (bs.reverse.map byteDecStr) ++ ".in-addr.arpa."

/-- The ip6.arpa reverse name of 16 address bytes. -/
def reverseIPv6Name (addr : List Nat) : String :=
  joinWithDot (v6Nibbles addr) ++ ".ip6.arpa."

/-- Model of dns.ReverseAddr as applied to the rendered address of an A
or AAAA record.  On a valid 4- or 16-byte address Go's render-and-reparse
round trip is the identity, so the reversal is taken directly from the
bytes: in-addr.arpa for 4-byte-representable addresses, ip6.arpa for
other 16-byte addresses; any other length fails to parse (none), which
LoadPTRs treats as log.Fatalf. -/
def reverseAddr (addr : List Nat) : Option String :=
  match goTo4 addr with
  | some bs => some (reverseIPv4Name bs)
  | none => if addr.length = 16 then some (reverseIPv6Name addr) else none

/-- The PTR query LoadPTRs builds: dns.Msg{} then SetQuestion(qname,
TypePTR), which draws a fresh random identifier, sets recursion-desired
and installs the single question with class INET. -/
def mkPTRQuery (qname : String) (idv : Nat) : Msg :=
  { emptyMsg with
    Id := idv % 65536,
    RecursionDesired := true,
    Question := [⟨qname, TypePTR, ClassINET⟩] }

/-- State threaded through the LoadPTRs loops: the PTR cache being
populated, the trace of Exchange calls issued so far (observable effects
of the loop), and the index of the next random-identifier draw. -/
structure PTRState where
  ptrs : List (String × String)
  trace : List Msg
  rngIdx : Nat
  deriving DecidableEq

/-- Processing of one A/AAAA address inside the answer loop (part_000
lines 66-85): reverse the address (fatal on failure), build and exchange
the PTR query, skip with a warning on a transport error, and on a
non-nil reply with at least one answer cache the first answer's target
through the unchecked *dns.PTR assertion. -/
def loadPTRsAddr (t : ExchangeFn) (rng : Nat → Nat) (ip : String) (rq : Option String)
    (st : PTRState) : Except PanicKind PTRState :=
  match rq with
  | none => Except.error .fatalReverseAddr
  | some qname =>
    let msg := mkPTRQuery qname (rng st.rngIdx)
    let st1 : PTRState :=
      { st with trace := st.trace ++ [msg], rngIdx := st.rngIdx + 1 }
    match t msg with
    | Except.error _ => Except.ok st1
    | Except.ok none => Except.ok st1
    | Except.ok (some r) =>
      match r.Answer with
      | [] => Except.ok st1
      | DNSRR.ptr target :: _ => Except.ok { st1 with ptrs := mapInsert st1.ptrs ip target }
      | _ :: _ => Except.error .assertPTR

/-- One answer record of the inner loop (part_000 lines 54-64): A and
AAAA records are looked up, every other record type is skipped. -/
def loadPTRsRR (t : ExchangeFn) (rng : Nat → Nat) (rr : DNSRR) (st : PTRState) :
    Except PanicKind PTRState :=
  match rr with
  | .a addr => loadPTRsAddr t rng (ipToString addr) (reverseAddr addr) st
  | .aaaa addr => loadPTRsAddr t rng (ipToString addr) (reverseAddr addr) st
  | _ => Except.ok st

/-- The inner loop over one reply's answer records. -/
def loadPTRsAnswers (t : ExchangeFn) (rng : Nat → Nat) :
    List DNSRR → PTRState → Except PanicKind PTRState
  | [], st => Except.ok st
  | rr :: rest, st =>
    match loadPTRsRR t rng rr st with
    | Except.error k => Except.error k
    | Except.ok st1 => loadPTRsAnswers t rng rest st1

/-- The outer loop over the replies (part_000 line 53): iterating a nil
reply dereferences its Answer field and panics. -/
def loadPTRsReplies (t : ExchangeFn) (rng : Nat → Nat) :
    List (Option Msg) → PTRState → Except PanicKind PTRState
  | [], st => Except.ok st
  | none :: _, _ => Except.error .nilReply
  | some m :: rest, st =>
    match loadPTRsAnswers t rng m.Answer st with
    | Except.error k => Except.error k
    | Except.ok st1 => loadPTRsReplies t rng rest st1

/-- Entry.LoadPTRs (part_000 lines 47-87): initialise the PTR cache if it
is nil, scan every answer of every reply, and resolve each A/AAAA address
to its PTR target.  The result also carries the trace of Exchange calls
issued; an error is an abnormal process termination (panic or
log.Fatalf), never an error returned to the caller. -/
def LoadPTRs (e : Entry) (t : ExchangeFn) (rng : Nat → Nat) :
    Except PanicKind (Entry × List Msg) :=
  let init : PTRState := { ptrs := e.PTRs.getD [], trace := [], rngIdx := 0 }
  match loadPTRsReplies t rng e.Replies init with
  | Except.error k => Except.error k
  | Except.ok st => Except.ok ({ e with PTRs := some st.ptrs }, st.trace)

/-- A or AAAA records (the addresses LoadPTRs looks up). -/
def isAddrRR : DNSRR → Bool
  | .a _ => true
  | .aaaa _ => true
  | _ => false

/-- Number of A/AAAA answer records across the replies. -/
def countAddrRRs (replies : List (Option Msg)) : Nat :=
  (replies.map (fun r => match r with
    | some m => (m.Answer.filter isAddrRR).length
    | none => 0)).sum

/-- Address validity for an answer record: A/AAAA addresses of 4 or 16
bytes (every address produced by the DNS library); reverseAddr succeeds
exactly on these. -/
def validAddrRR : DNSRR → Bool
  | .a addr => addr.length == 4 || addr.length == 16
  | .aaaa addr => addr.length == 4 || addr.length == 16
  | _ => true

/-! ## Characterization helpers for createQuery -/

/-- The message the i-th loop iteration of createQuery appends, given the
OPT record computed for this options value (none when no OPT is
attached). -/
def builtMsg (opts : Flags) (rng : Nat → Nat) (optRec : Option OPTRecord)
    (i : Nat) (qType : Nat) : Msg :=
  { emptyMsg with
    Id := if opts.ID != -1 then goUInt16OfInt opts.ID else rng i % 65536,
    Authoritative := opts.AuthoritativeAnswer,
    AuthenticatedData := opts.AuthenticData,
    CheckingDisabled := opts.CheckingDisabled,
    RecursionDesired := opts.RecursionDesired,
    RecursionAvailable := opts.RecursionAvailable,
    Zero := opts.Zero,
    Truncated := opts.Truncated,
    Question := [⟨fqdn opts.Name, qType, opts.Class⟩],
    Extra := (match optRec with | some o => [DNSRR.opt o] | none => []) }

/-- The full query list built from position i on. -/
def builtList (opts : Flags) (rng : Nat → Nat) (optRec : Option OPTRecord) :
    Nat → List Nat → List Msg
  | _, [] => []
  | i, qType :: rest => builtMsg opts rng optRec i qType :: builtList opts rng optRec (i + 1) rest

/-- Closed form of the padding length createQuery computes: the message
measured at padding time is always the bare 12-byte header, so the
nominal padding is 116 bytes, clamped to the buffer headroom
UDPBuffer - 12 when UDPBuffer < 128, and to 0 when even that is
negative. -/
def goPadClosed (buf : Nat) : Nat :=
  if 128 ≤ buf then 116 else if 12 ≤ buf then buf - 12 else 0

/-! ## Formalizations of two claim sentences (for comparison against the code) -/

/-- The padding property exactly as the claim states it: the serialized
length after padding is a multiple of 128, unless truncation applies, in
which case the padding length equals max(0, bufferSize - unpaddedLength).
(Read as a disjunction, the weakest reading.) -/
def specPaddingClaim (bufferSize unpaddedLength padLen : Nat) : Prop :=
  (unpaddedLength + padLen) % 128 = 0 ∨ padLen = max 0 (bufferSize - unpaddedLength)

/-- Field activity exactly as the claim enumerates it: DNSSEC-OK, NSID,
padding, client-subnet, cookie, advertised UDP buffer size — a nonzero
advertised buffer size counting as an active field. -/
def specEDNS0Active (opts : Flags) : Bool :=
  opts.DNSSEC || opts.NSID || opts.Pad ||
  !(opts.ClientSubnet == "") || !(opts.Cookie == "") || !(opts.UDPBuffer == 0)

/-! ## Concrete inputs used by witnesses and counterexamples -/

/-- A constant random stream. -/
def rngZ : Nat → Nat := fun _ => 0

/-- The identity random stream (distinct consecutive draws). -/
def idRng : Nat → Nat := fun n => n

/-- Padding enabled against the default 1232-byte buffer. -/
def opts1 : Flags :=
  { defaultFlags with
    Name := "example.com.", Class := 1, ID := 0,
    Pad := true, UDPBuffer := 1232 }

/-- Only the advertised UDP buffer size set; no other EDNS0 field. -/
def opts2 : Flags :=
  { defaultFlags with
    Name := "example.com.", Class := 1, ID := 0,
    UDPBuffer := 4096 }

/-- No EDNS0 field active at all. -/
def opts2b : Flags :=
  { defaultFlags with Name := "example.com.", Class := 1, ID := 0 }

/-- A client-subnet option. -/
def opts3 : Flags :=
  { defaultFlags with
    Name := "example.com.", Class := 1, ID := 0,
    ClientSubnet := "203.0.113.0/24" }

/-- Go's 16-byte form of 203.0.113.0. -/
def v4Mapped203 : List Nat :=
  [0, 0, 0, 0, 0, 0, 0, 0, 0, 0, 255, 255, 203, 0, 113, 0]

/-- Caller identifier unset (the -1 sentinel). -/
def opts4 : Flags :=
  { defaultFlags with Name := "example.com.", Class := 1, ID := -1 }

/-- Caller identifier fixed. -/
def opts4b : Flags :=
  { defaultFlags with Name := "example.com.", Class := 1, ID := 7 }

/-- Flags for the batch-order witness. -/
def opts5 : Flags :=
  { defaultFlags with
    Name := "example.com.", Class := 1, ID := 7,
    RecursionDesired := true }

/-- Flags carrying one well-formed and one malformed header string. -/
def opts6 : Flags :=
  { defaultFlags with
    HTTPHeaders := ["X-Test:  value ", "malformed"],
    HTTPUserAgent := "q-test", HTTPMethod := "GET" }

/-- An empty TLS configuration. -/
def tc6 : TLSConf := { NextProtos := [] }

/-- An entry holding a single reply with one A record. -/
def singleA (addr : List Nat) : Entry :=
  { Queries := [], Replies := [some { emptyMsg with Answer := [DNSRR.a addr] }],
    Server := "", Time := 0, PTRs := none, existingRRs := [] }

/-- The same entry after LoadPTRs installed the cache ps. -/
def withPTRs (addr : List Nat) (ps : List (String × String)) : Entry :=
  { singleA addr with PTRs := some ps }

/-- A transport whose every Exchange fails. -/
def tfail : ExchangeFn := fun _ => Except.error "connection refused"

/-- A transport answering every query with one PTR record. -/
def tptr : ExchangeFn :=
  fun _ => Except.ok (some { emptyMsg with Answer := [DNSRR.ptr "host.example."] })

/-- An entry whose single reply repeats the same A record twice. -/
def e8 : Entry :=
  { Queries := [],
    Replies := [some { emptyMsg with Answer := [DNSRR.a [192, 0, 2, 1], DNSRR.a [192, 0, 2, 1]] }],
    Server := "s", Time := 0, PTRs := none, existingRRs := [] }

/-- An entry whose single reply slot is nil. -/
def e9 : Entry :=
  { Queries := [], Replies := [none], Server := "s", Time := 0,
    PTRs := none, existingRRs := [] }

/-- Projection of an Except result to Option. -/
def exceptToOption {ε α : Type} : Except ε α → Option α
  | Except.ok a => some a
  | Except.error _ => none

/-- Decidable validity of an entry's replies for LoadPTRs: every A/AAAA
answer record carries an address of a length the DNS library produces
(4 or 16 bytes), so reverseAddr succeeds on it. -/
def validReplies : List (Option Msg) → Bool
  | [] => true
  | none :: rest => validReplies rest
  | some m :: rest => m.Answer.all validAddrRR && validReplies rest

/-! ## Lemmas: createQuery characterization -/

theorem createQueryGo_cons (opts : Flags) (rng : Nat → Nat) (i qType : Nat) (rest : List Nat) :
    createQueryGo opts rng i (qType :: rest) =
      match buildOptRecord opts 12 with
      | none => none
      | some optRec =>
        match createQueryGo opts rng (i + 1) rest with
        | none => none
        | some qs => some (builtMsg opts rng optRec i qType :: qs) := rfl

theorem createQueryGo_some (opts : Flags) (rng : Nat → Nat) (optRec : Option OPTRecord)
    (h : buildOptRecord opts 12 = some optRec) :
    ∀ (i : Nat) (ts : List Nat),
      createQueryGo opts rng i ts = some (builtList opts rng optRec i ts) := by
  intro i ts
  induction ts generalizing i with
  | nil => rfl
  | cons t ts ih =>
    rw [createQueryGo_cons, h, ih (i + 1)]
    rfl

theorem createQueryGo_fatal (opts : Flags) (rng : Nat → Nat)
    (h : buildOptRecord opts 12 = none) (i qType : Nat) (rest : List Nat) :
    createQueryGo opts rng i (qType :: rest) = none := by
  rw [createQueryGo_cons, h]

theorem createQuery_shape (opts : Flags) (rng : Nat → Nat) (ts : List Nat) (qs : List Msg)
    (h : createQuery opts ts rng = some qs) :
    (qs = [] ∧ ts = []) ∨
      ∃ optRec, buildOptRecord opts 12 = some optRec ∧ qs = builtList opts rng optRec 0 ts := by
  cases ts with
  | nil =>
    left
    have : some ([] : List Msg) = some qs := h
    exact ⟨(Option.some_inj.mp this).symm, rfl⟩
  | cons t ts =>
    right
    cases hb : buildOptRecord opts 12 with
    | none => rw [createQuery, createQueryGo_fatal opts rng hb] at h; exact absurd h (by simp)
    | some optRec =>
      refine ⟨optRec, rfl, ?_⟩
      rw [createQuery, createQueryGo_some opts rng optRec hb] at h
      exact (Option.some_inj.mp h).symm

theorem builtList_length (opts : Flags) (rng : Nat → Nat) (optRec : Option OPTRecord) :
    ∀ (i : Nat) (ts : List Nat), (builtList opts rng optRec i ts).length = ts.length := by
  intro i ts
  induction ts generalizing i with
  | nil => rfl
  | cons t ts ih => simpa [builtList] using ih (i + 1)

theorem builtList_get (opts : Flags) (rng : Nat → Nat) (optRec : Option OPTRecord) :
    ∀ (i : Nat) (ts : List Nat) (j : Nat) (h1 : j < (builtList opts rng optRec i ts).length)
      (h2 : j < ts.length),
      (builtList opts rng optRec i ts).get ⟨j, h1⟩ =
        builtMsg opts rng optRec (i + j) (ts.get ⟨j, h2⟩) := by
  intro i ts
  induction ts generalizing i with
  | nil => intro j h1 h2; exact absurd h2 (by simp)
  | cons t ts ih =>
    intro j h1 h2
    cases j with
    | zero => simp [builtList]
    | succ j =>
      have h1' : j < (builtList opts rng optRec (i + 1) ts).length := by
        simpa [builtList] using h1
      have h2' : j < ts.length := by simpa using h2
      have := ih (i + 1) j h1' h2'
      simp only [builtList, List.get_cons_succ]
      rw [this]
      congr 1
      omega

theorem builtList_mem (opts : Flags) (rng : Nat → Nat) (optRec : Option OPTRecord) :
    ∀ (i : Nat) (ts : List Nat) (q : Msg), q ∈ builtList opts rng optRec i ts →
      ∃ j t, q = builtMsg opts rng optRec j t := by
  intro i ts
  induction ts generalizing i with
  | nil => intro q hq; exact absurd hq (by simp [builtList])
  | cons t ts ih =>
    intro q hq
    rcases List.mem_cons.mp hq with h | h
    · exact ⟨i, t, h⟩
    · exact ih (i + 1) q h

/-! ## C5: one query per requested type, in order, flags copied verbatim -/

/-- C5: for every ordered list of requested record types (duplicates
allowed), createQuery returns exactly one query per requested type in
input order — the i-th query's question carries the i-th requested type —
and every query's header flags equal the corresponding fields of the
resolved options verbatim, with no inference or normalization. -/
theorem createQuery_order_and_flags (opts : Flags) (rrTypes : List Nat) (rng : Nat → Nat)
    (qs : List Msg) (h : createQuery opts rrTypes rng = some qs) :
    qs.length = rrTypes.length ∧
    ∀ (j : Nat) (h1 : j < qs.length) (h2 : j < rrTypes.length),
      (qs.get ⟨j, h1⟩).Question = [⟨fqdn opts.Name, rrTypes.get ⟨j, h2⟩, opts.Class⟩] ∧
      (qs.get ⟨j, h1⟩).Authoritative = opts.AuthoritativeAnswer ∧
      (qs.get ⟨j, h1⟩).AuthenticatedData = opts.AuthenticData ∧
      (qs.get ⟨j, h1⟩).CheckingDisabled = opts.CheckingDisabled ∧
      (qs.get ⟨j, h1⟩).RecursionDesired = opts.RecursionDesired ∧
      (qs.get ⟨j, h1⟩).RecursionAvailable = opts.RecursionAvailable ∧
      (qs.get ⟨j, h1⟩).Zero = opts.Zero ∧
      (qs.get ⟨j, h1⟩).Truncated = opts.Truncated := by
  rcases createQuery_shape opts rng rrTypes qs h with ⟨hqs, hts⟩ | ⟨optRec, _, hqs⟩
  · subst hqs; subst hts
    exact ⟨rfl, fun j h1 _ => absurd h1 (by simp)⟩
  · subst hqs
    refine ⟨builtList_length opts rng optRec 0 rrTypes, ?_⟩
    intro j h1 h2
    rw [builtList_get opts rng optRec 0 rrTypes j h1 h2]
    simp only [Nat.zero_add]
    exact ⟨rfl, rfl, rfl, rfl, rfl, rfl, rfl, rfl⟩

/-- C5 witness: a concrete 2-type batch. -/
theorem createQuery_order_and_flags_witness :
    ∃ qs, createQuery opts5 [1, 16] rngZ = some qs ∧ qs.length = 2 ∧
      ∀ (h1 : 0 < qs.length) (h2 : 1 < qs.length),
        (qs.get ⟨0, h1⟩).Question = [⟨"example.com.", 1, 1⟩] ∧
        (qs.get ⟨1, h2⟩).Question = [⟨"example.com.", 16, 1⟩] ∧
        (qs.get ⟨0, h1⟩).RecursionDesired = true := by
  refine ⟨_, rfl, ?_, ?_⟩
  · obtain ⟨hlen, _⟩ := createQuery_order_and_flags opts5 [1, 16] rngZ _ rfl
    exact hlen
  · intro h1 h2
    obtain ⟨_, hidx⟩ := createQuery_order_and_flags opts5 [1, 16] rngZ _ rfl
    obtain ⟨hq0, _, _, _, hrd0, _⟩ := hidx 0 h1 (by decide)
    obtain ⟨hq1, _⟩ := hidx 1 h2 (by decide)
    refine ⟨?_, ?_, ?_⟩
    · rw [hq0]; rfl
    · rw [hq1]; rfl
    · rw [hrd0]; rfl

/-! ## C4: per-query identifiers -/

/-- C4: for a 2-type batch, the identifier of each query is either the
caller-fixed value uint16(ID) when ID is not the -1 sentinel (identical
across the batch), or a random identifier drawn independently per query
(the i-th query takes the i-th draw of the stream), so the two queries
have distinct identifiers whenever the two draws differ. -/
theorem createQuery_identifiers (opts : Flags) (t1 t2 : Nat) (rng : Nat → Nat)
    (qs : List Msg) (h : createQuery opts [t1, t2] rng = some qs) :
    ∃ q1 q2, qs = [q1, q2] ∧
      (opts.ID = -1 →
        q1.Id = rng 0 % 65536 ∧ q2.Id = rng 1 % 65536 ∧
        (rng 0 % 65536 ≠ rng 1 % 65536 → q1.Id ≠ q2.Id)) ∧
      (opts.ID ≠ -1 →
        q1.Id = goUInt16OfInt opts.ID ∧ q2.Id = goUInt16OfInt opts.ID) := by
  rcases createQuery_shape opts rng [t1, t2] qs h with ⟨_, hts⟩ | ⟨optRec, _, hqs⟩
  · exact absurd hts (by simp)
  · subst hqs
    refine ⟨_, _, rfl, ?_, ?_⟩
    · intro hID
      have hbne : (opts.ID != -1) = false := by simp [hID]
      constructor
      · show (if opts.ID != -1 then goUInt16OfInt opts.ID else rng 0 % 65536) = rng 0 % 65536
        rw [hbne]; rfl
      constructor
      · show (if opts.ID != -1 then goUInt16OfInt opts.ID else rng 1 % 65536) = rng 1 % 65536
        rw [hbne]; rfl
      · intro hne
        show (if opts.ID != -1 then goUInt16OfInt opts.ID else rng 0 % 65536) ≠
             (if opts.ID != -1 then goUInt16OfInt opts.ID else rng 1 % 65536)
        rw [hbne]
        simpa using hne
    · intro hID
      have hbne : (opts.ID != -1) = true := by simpa using hID
      constructor
      · show (if opts.ID != -1 then goUInt16OfInt opts.ID else rng 0 % 65536) = goUInt16OfInt opts.ID
        rw [hbne]; rfl
      · show (if opts.ID != -1 then goUInt16OfInt opts.ID else rng 1 % 65536) = goUInt16OfInt opts.ID
        rw [hbne]; rfl

/-- C4 witness: with the sentinel ID and two distinct draws the two
queries have distinct identifiers; with a fixed ID they share it. -/
theorem createQuery_identifiers_witness :
    (∃ qs q1 q2, createQuery opts4 [1, 28] idRng = some qs ∧ qs = [q1, q2] ∧
      q1.Id = 0 ∧ q2.Id = 1 ∧ q1.Id ≠ q2.Id) ∧
    (∃ qs q1 q2, createQuery opts4b [1, 28] idRng = some qs ∧ qs = [q1, q2] ∧
      q1.Id = 7 ∧ q2.Id = 7) := by
  constructor
  · obtain ⟨q1, q2, heq, hrand, _⟩ := createQuery_identifiers opts4 1 28 idRng _ rfl
    obtain ⟨h1, h2, hne⟩ := hrand (by decide)
    exact ⟨_, q1, q2, rfl, heq, h1, h2, hne (by decide)⟩
  · obtain ⟨q1, q2, heq, _, hfix⟩ := createQuery_identifiers opts4b 1 28 idRng _ rfl
    obtain ⟨h1, h2⟩ := hfix (by decide)
    exact ⟨_, q1, q2, rfl, heq, h1, h2⟩

/-! ## C2: OPT record presence -/

theorem buildOptRecord_isSome (opts : Flags) (optRec : Option OPTRecord)
    (h : buildOptRecord opts 12 = some optRec) :
    optRec.isSome = edns0Requested opts := by
  unfold buildOptRecord at h
  cases hc : edns0Requested opts with
  | false =>
    rw [hc] at h
    simp only [Bool.false_eq_true, if_false, Option.some_inj] at h
    rw [← h]
    rfl
  | true =>
    rw [hc] at h
    simp only [if_true] at h
    cases hs : subnetOption opts with
    | none => rw [hs] at h; exact absurd h (by simp)
    | some sub =>
      rw [hs] at h
      simp only [Option.some_inj] at h
      rw [← h]
      rfl

theorem hasOPT_builtMsg (opts : Flags) (rng : Nat → Nat) (optRec : Option OPTRecord)
    (i qType : Nat) :
    hasOPT (builtMsg opts rng optRec i qType) = optRec.isSome := by
  cases optRec <;> rfl

/-- C2 (amended): a query built by createQuery carries an additional-
section OPT record exactly when one of the five option fields DNSSEC,
NSID, Pad, client-subnet, cookie is active; the advertised UDP buffer
size does not participate in the gate. -/
theorem createQuery_opt_presence (opts : Flags) (rrTypes : List Nat) (rng : Nat → Nat)
    (qs : List Msg) (h : createQuery opts rrTypes rng = some qs) :
    ∀ q ∈ qs, hasOPT q = edns0Requested opts := by
  intro q hq
  rcases createQuery_shape opts rng rrTypes qs h with ⟨hqs, _⟩ | ⟨optRec, hb, hqs⟩
  · subst hqs; exact absurd hq (by simp)
  · subst hqs
    obtain ⟨j, t, hqeq⟩ := builtList_mem opts rng optRec 0 rrTypes q hq
    rw [hqeq, hasOPT_builtMsg, buildOptRecord_isSome opts optRec hb]

/-- C2 witness: with no option field active the query has no OPT record. -/
theorem createQuery_opt_presence_witness :
    ∃ qs, createQuery opts2b [1] rngZ = some qs ∧ ∀ q ∈ qs, hasOPT q = false := by
  refine ⟨_, rfl, ?_⟩
  intro q hq
  have h := createQuery_opt_presence opts2b [1] rngZ _ rfl q hq
  exact h.trans (by decide)

/-- C2 counterexample: a nonzero advertised UDP buffer size is an active
EDNS0Options field by the claim's enumeration, yet the built query
carries no OPT record, refuting the claimed equivalence. -/
theorem opt_presence_claim_counterexample :
    specEDNS0Active opts2 = true ∧
    (createQuery opts2 [1] rngZ).map (fun qs => qs.map hasOPT) = some [false] := by
  exact ⟨rfl, rfl⟩

/-! ## C1: padding length -/

theorem goPadCompute_closed (buf : Nat) : goPadCompute 12 buf = goPadClosed buf := by
  unfold goPadCompute goPadClosed
  have h12 : ((12 : Nat) : Int) % 128 = 12 := by decide
  simp only [h12]
  split_ifs <;> omega

theorem subnetOption_shape (opts : Flags) (sub : Option EDNS0Opt)
    (h : subnetOption opts = some sub) :
    sub = none ∨ ∃ f m ip, sub = some (.subnet f m 0 ip) := by
  unfold subnetOption at h
  split at h
  · left; exact (Option.some_inj.mp h).symm
  · split at h
    · exact absurd h (by simp)
    · right
      refine ⟨_, _, _, (Option.some_inj.mp h).symm⟩

theorem buildOptRecord_padding (opts : Flags) (o : OPTRecord)
    (h : buildOptRecord opts 12 = some (some o)) (hp : opts.Pad = true) :
    paddingLens o = [goPadClosed opts.UDPBuffer] := by
  have hc : edns0Requested opts = true := by simp [edns0Requested, hp]
  unfold buildOptRecord at h
  rw [hc] at h
  simp only [if_true] at h
  cases hs : subnetOption opts with
  | none => rw [hs] at h; exact absurd h (by simp)
  | some sub =>
    rw [hs] at h
    simp only [Option.some_inj] at h
    rcases subnetOption_shape opts sub hs with hnone | ⟨f, m, ip, hsome⟩
    · subst hnone
      subst h
      cases hn : opts.NSID <;> cases hk : (opts.Cookie == "") <;>
        simp [paddingLens, hp, List.filterMap_append, goPadCompute_closed]
    · subst hsome
      subst h
      cases hn : opts.NSID <;> cases hk : (opts.Cookie == "") <;>
        simp [paddingLens, hp, List.filterMap_append, goPadCompute_closed]

/-- C1 (amended): when padding is enabled, createQuery computes the
padding length from the message length measured before the question and
the OPT record are attached — always the bare 12-byte header — so every
query carries exactly one padding option whose length is 116 (rounding 12
up to 128) when the advertised buffer is at least 128 bytes, and is
clamped to max(0, UDPBuffer - 12) below that; the final serialized query
length need not be a multiple of 128. -/
theorem createQuery_padding_length (opts : Flags) (rrTypes : List Nat) (rng : Nat → Nat)
    (qs : List Msg) (h : createQuery opts rrTypes rng = some qs) (hp : opts.Pad = true) :
    ∀ q ∈ qs, (optRecords q).map paddingLens = [[goPadClosed opts.UDPBuffer]] := by
  intro q hq
  rcases createQuery_shape opts rng rrTypes qs h with ⟨hqs, _⟩ | ⟨optRec, hb, hqs⟩
  · subst hqs; exact absurd hq (by simp)
  · subst hqs
    obtain ⟨j, t, hqeq⟩ := builtList_mem opts rng optRec 0 rrTypes q hq
    have hsome : optRec.isSome = true := by
      rw [buildOptRecord_isSome opts optRec hb]
      simp [edns0Requested, hp]
    cases optRec with
    | none => exact absurd hsome (by simp)
    | some o =>
      subst hqeq
      have : optRecords (builtMsg opts rng (some o) j t) = [o] := rfl
      rw [this, List.map_cons, List.map_nil,
        buildOptRecord_padding opts o hb hp]

/-- C1 witness for the amended theorem: padding enabled against a
1232-byte buffer yields a 116-byte padding option. -/
theorem createQuery_padding_length_witness :
    ∃ qs, createQuery opts1 [1] rngZ = some qs ∧
      ∀ q ∈ qs, (optRecords q).map paddingLens = [[116]] := by
  refine ⟨_, rfl, ?_⟩
  intro q hq
  have h := createQuery_padding_length opts1 [1] rngZ _ rfl rfl q hq
  exact h.trans (by decide)

/-- C1 counterexample: with padding enabled, name "example.com." and a
1232-byte buffer, the built query serializes to 160 bytes with a 116-byte
padding option; no truncation applies (12 + 116 ≤ 1232), yet 160 is not a
multiple of 128 and 116 differs from max(0, 1232 - 44), so the claimed
property fails at this input. -/
theorem padding_claim_counterexample :
    (createQuery opts1 [1] rngZ).map
        (fun qs => qs.map (fun q => (msgWireLen q, (optRecords q).map paddingLens)))
      = some [(160, [[116]])] ∧
    ¬ specPaddingClaim 1232 (160 - 116) 116 := by
  constructor
  · rfl
  · unfold specPaddingClaim
    decide

/-! ## C3: client-subnet handling -/

theorem clientSubnet_requested (opts : Flags) (hne : opts.ClientSubnet ≠ "") :
    edns0Requested opts = true := by
  have hb : (opts.ClientSubnet == "") = false := by
    simpa using hne
  simp [edns0Requested, hb]

theorem parseAddrBits_le (addrCs : List Char) (ip : List Nat) (bits : Nat)
    (h : parseAddrBits addrCs = some (ip, bits)) : bits ≤ 128 := by
  unfold parseAddrBits at h
  split at h
  · simp only [Option.some_inj, Prod.mk.injEq] at h
    omega
  · split at h
    · simp only [Option.some_inj, Prod.mk.injEq] at h
      omega
    · exact absurd h (by simp)

theorem parseCIDR_mask_le (s : String) (ip : List Nat) (n : Nat)
    (h : parseCIDR s = some (ip, n)) : n ≤ 128 := by
  unfold parseCIDR at h
  split at h
  next => exact absurd h (by simp)
  next a b hbk =>
    split at h
    next hab => exact absurd h (by simp)
    next ip0 bits hab =>
      split at h
      next => exact absurd h (by simp)
      next k hd =>
        split at h
        next hk =>
          simp only [Option.some_inj, Prod.mk.injEq] at h
          have := parseAddrBits_le _ _ _ hab
          omega
        next => exact absurd h (by simp)

theorem subnetOption_of_parse (opts : Flags) (ip : List Nat) (mask : Nat)
    (hne : opts.ClientSubnet ≠ "") (hp : parseCIDR opts.ClientSubnet = some (ip, mask)) :
    subnetOption opts =
      some (some (.subnet (if (goTo4 ip).isSome then 1 else 2) mask 0 ip)) := by
  have hb : (opts.ClientSubnet == "") = false := by simpa using hne
  have hm : mask % 256 = mask := Nat.mod_eq_of_lt (by
    have := parseCIDR_mask_le opts.ClientSubnet ip mask hp
    omega)
  unfold subnetOption
  rw [hb]
  simp only [Bool.false_eq_true, if_false]
  rw [hp]
  simp only [hm]

theorem subnetOption_of_parse_fail (opts : Flags)
    (hne : opts.ClientSubnet ≠ "") (hp : parseCIDR opts.ClientSubnet = none) :
    subnetOption opts = none := by
  have hb : (opts.ClientSubnet == "") = false := by simpa using hne
  unfold subnetOption
  rw [hb]
  simp only [Bool.false_eq_true, if_false]
  rw [hp]

theorem buildOptRecord_subnet (opts : Flags) (o : OPTRecord) (f m : Nat) (ip : List Nat)
    (h : buildOptRecord opts 12 = some (some o))
    (hsub : subnetOption opts = some (some (.subnet f m 0 ip)))
    (hc : edns0Requested opts = true) :
    subnetOptions o = [EDNS0Opt.subnet f m 0 ip] := by
  unfold buildOptRecord at h
  rw [hc] at h
  simp only [if_true] at h
  rw [hsub] at h
  simp only [Option.some_inj] at h
  subst h
  cases hn : opts.NSID <;> cases hpad : opts.Pad <;> cases hk : (opts.Cookie == "") <;>
    simp [subnetOptions, List.filter_append]

/-- C3: a non-empty client-subnet string is parsed as a CIDR; an
unparseable string aborts createQuery with a fatal configuration error,
and on success the single OPT record carries exactly one client-subnet
option whose family is 1 (IPv4) unless the parsed address is not
4-byte-representable (then 2), whose source netmask is the CIDR prefix
length and whose scope netmask is zero. -/
theorem createQuery_client_subnet (opts : Flags) (rrTypes : List Nat) (rng : Nat → Nat)
    (hne : opts.ClientSubnet ≠ "") :
    (parseCIDR opts.ClientSubnet = none → rrTypes ≠ [] →
      createQuery opts rrTypes rng = none) ∧
    (∀ ip mask qs, parseCIDR opts.ClientSubnet = some (ip, mask) →
      createQuery opts rrTypes rng = some qs → ∀ q ∈ qs,
        ∃ o, optRecords q = [o] ∧
          subnetOptions o =
            [EDNS0Opt.subnet (if (goTo4 ip).isSome then 1 else 2) mask 0 ip]) := by
  have hc : edns0Requested opts = true := clientSubnet_requested opts hne
  constructor
  · intro hp hts
    have hfail : buildOptRecord opts 12 = none := by
      unfold buildOptRecord
      rw [hc]
      simp only [if_true]
      rw [subnetOption_of_parse_fail opts hne hp]
    cases rrTypes with
    | nil => exact absurd rfl hts
    | cons t ts => exact createQueryGo_fatal opts rng hfail 0 t ts
  · intro ip mask qs hp h q hq
    rcases createQuery_shape opts rng rrTypes qs h with ⟨hqs, _⟩ | ⟨optRec, hb, hqs⟩
    · subst hqs; exact absurd hq (by simp)
    · subst hqs
      obtain ⟨j, t, hqeq⟩ := builtList_mem opts rng optRec 0 rrTypes q hq
      have hsome : optRec.isSome = true := by
        rw [buildOptRecord_isSome opts optRec hb, hc]
      cases optRec with
      | none => exact absurd hsome (by simp)
      | some o =>
        subst hqeq
        refine ⟨o, rfl, ?_⟩
        exact buildOptRecord_subnet opts o _ mask ip hb
          (subnetOption_of_parse opts ip mask hne hp) hc

/-- C3 witness: the CIDR "203.0.113.0/24" yields family 1 (IPv4), source
netmask 24, scope netmask 0. -/
theorem createQuery_client_subnet_witness :
    ∃ qs, createQuery opts3 [1] rngZ = some qs ∧ ∀ q ∈ qs,
      ∃ o, optRecords q = [o] ∧
        subnetOptions o = [EDNS0Opt.subnet 1 24 0 v4Mapped203] := by
  refine ⟨_, rfl, ?_⟩
  intro q hq
  have h := (createQuery_client_subnet opts3 [1] rngZ (by decide)).2
    v4Mapped203 24 _ (by decide) rfl q hq
  simpa using h

/-! ## C6: DoH header-string parsing -/

/-- C6: in the HTTP(S) DoH branch, transport construction always
succeeds with headers parsed from the supplied strings; a string is split
at its first colon with both sides trimmed, and a string without a colon
is dropped (with a warning) rather than failing the construction. -/
theorem newTransport_http_headers (o : Flags) (server : String) (tc : TLSConf)
    (hodoh : o.ODoHProxy = "") :
    newTransport server TransportType.http tc o =
      Except.ok (Transport.http
        { Common := { Server := server, ReuseConn := o.ReuseConn },
          TLSConfig := tc, UserAgent := o.HTTPUserAgent, Method := o.HTTPMethod,
          HTTP2 := o.HTTP2, HTTP3 := o.HTTP3, NoPMTUd := !o.PMTUD,
          Headers := parseHeaders o.HTTPHeaders }) ∧
    (∀ h hs, breakAtFirst ':' h.toList = none →
      parseHeaders (h :: hs) = parseHeaders hs) ∧
    (∀ h hs a b, breakAtFirst ':' h.toList = some (a, b) →
      parseHeaders (h :: hs) =
        (goTrimSpace (String.mk a), goTrimSpace (String.mk b)) :: parseHeaders hs) ∧
    parseHeaders ["X-Test:  value "] = [("X-Test", "value")] ∧
    parseHeaders ["malformed"] = [] := by
  refine ⟨?_, ?_, ?_, rfl, rfl⟩
  · have hb : (o.ODoHProxy == "") = true := by simp [hodoh]
    unfold newTransport
    rw [hb]
    rfl
  · intro h hs hbk
    simp only [parseHeaders, goSplitN2Colon, hbk]
  · intro h hs a b hbk
    simp only [parseHeaders, goSplitN2Colon, hbk]

/-- C6 witness: concrete header strings through a concrete DoH
construction. -/
theorem newTransport_http_headers_witness :
    newTransport "dns.example.com" TransportType.http tc6 opts6 =
      Except.ok (Transport.http
        { Common := { Server := "dns.example.com", ReuseConn := false },
          TLSConfig := tc6, UserAgent := "q-test", Method := "GET",
          HTTP2 := false, HTTP3 := false, NoPMTUd := true,
          Headers := [("X-Test", "value")] }) := by
  have h := (newTransport_http_headers opts6 "dns.example.com" tc6 rfl).1
  exact h.trans (by rfl)

/-! ## C9: nil replies make LoadPTRs panic -/

theorem loadPTRsReplies_nil_mem (t : ExchangeFn) (rng : Nat → Nat) :
    ∀ (rs : List (Option Msg)) (st : PTRState), none ∈ rs →
      ∃ k, loadPTRsReplies t rng rs st = Except.error k := by
  intro rs
  induction rs with
  | nil => intro st hmem; exact absurd hmem (by simp)
  | cons r rest ih =>
    intro st hmem
    cases r with
    | none => exact ⟨PanicKind.nilReply, rfl⟩
    | some m =>
      have hmem' : none ∈ rest := by
        rcases List.mem_cons.mp hmem with h | h
        · exact absurd h (by simp)
        · exact h
      cases ha : loadPTRsAnswers t rng m.Answer st with
      | error k => exact ⟨k, by simp [loadPTRsReplies, ha]⟩
      | ok st1 =>
        obtain ⟨k, hk⟩ := ih st1 hmem'
        exact ⟨k, by simp [loadPTRsReplies, ha, hk]⟩

/-- C9: LoadPTRs is not total on entries with nil reply slots: whenever a
nil reply occurs in Replies the run aborts abnormally instead of skipping
it (and when the nil reply is first, the abort is precisely the nil
dereference of its Answer field), so only entries whose replies are all
non-nil are safe. -/
theorem loadPTRs_nil_reply_panics (e : Entry) (t : ExchangeFn) (rng : Nat → Nat)
    (h : none ∈ e.Replies) :
    (∃ k, LoadPTRs e t rng = Except.error k) ∧
    (e.Replies.head? = some none → LoadPTRs e t rng = Except.error PanicKind.nilReply) := by
  constructor
  · obtain ⟨k, hk⟩ := loadPTRsReplies_nil_mem t rng e.Replies
      { ptrs := e.PTRs.getD [], trace := [], rngIdx := 0 } h
    exact ⟨k, by simp [LoadPTRs, hk]⟩
  · intro hh
    cases hrep : e.Replies with
    | nil => rw [hrep] at hh; exact absurd hh (by simp)
    | cons r rest =>
      rw [hrep] at hh
      simp only [List.head?_cons, Option.some_inj] at hh
      subst hh
      simp [LoadPTRs, hrep, loadPTRsReplies]

/-- C9 witness: an entry whose single reply slot is nil panics on the nil
dereference. -/
theorem loadPTRs_nil_reply_panics_witness :
    LoadPTRs e9 tfail rngZ = Except.error PanicKind.nilReply := by
  exact (loadPTRs_nil_reply_panics e9 tfail rngZ (by decide)).2 rfl

/-! ## C10: cache-write characterization -/

theorem reverseAddr_len4 (addr : List Nat) (h4 : addr.length = 4) :
    reverseAddr addr = some (reverseIPv4Name addr) := by
  simp [reverseAddr, goTo4, h4]

/-- C10: on an entry holding one A record, LoadPTRs writes a cache entry
for the address if and only if the PTR exchange succeeds with a non-nil
response holding at least one answer, storing the first answer's target
under the address; when that first answer is not a PTR record the
unchecked type assertion panics instead of skipping or logging. -/
theorem loadPTRs_cache_characterization (t : ExchangeFn) (rng : Nat → Nat)
    (addr : List Nat) (h4 : addr.length = 4) :
    LoadPTRs (singleA addr) t rng =
      (match t (mkPTRQuery (reverseIPv4Name addr) (rng 0)) with
       | Except.error _ =>
         Except.ok (withPTRs addr [], [mkPTRQuery (reverseIPv4Name addr) (rng 0)])
       | Except.ok none =>
         Except.ok (withPTRs addr [], [mkPTRQuery (reverseIPv4Name addr) (rng 0)])
       | Except.ok (some r) =>
         match r.Answer with
         | [] => Except.ok (withPTRs addr [], [mkPTRQuery (reverseIPv4Name addr) (rng 0)])
         | DNSRR.ptr target :: _ =>
           Except.ok (withPTRs addr [(ipToString addr, target)],
             [mkPTRQuery (reverseIPv4Name addr) (rng 0)])
         | _ :: _ => Except.error PanicKind.assertPTR) := by
  have hrev := reverseAddr_len4 addr h4
  cases ht : t (mkPTRQuery (reverseIPv4Name addr) (rng 0)) with
  | error s =>
    simp [LoadPTRs, loadPTRsReplies, loadPTRsAnswers, loadPTRsRR, loadPTRsAddr,
      singleA, withPTRs, hrev, ht]
  | ok resp =>
    cases resp with
    | none =>
      simp [LoadPTRs, loadPTRsReplies, loadPTRsAnswers, loadPTRsRR, loadPTRsAddr,
        singleA, withPTRs, hrev, ht]
    | some r =>
      cases hr : r.Answer with
      | nil =>
        simp [LoadPTRs, loadPTRsReplies, loadPTRsAnswers, loadPTRsRR, loadPTRsAddr,
          singleA, withPTRs, hrev, ht, hr]
      | cons rr rest =>
        cases rr <;>
          simp [LoadPTRs, loadPTRsReplies, loadPTRsAnswers, loadPTRsRR, loadPTRsAddr,
            singleA, withPTRs, hrev, ht, hr, mapInsert]

/-- C10 witness: a PTR response caches the first answer's target under
the address. -/
theorem loadPTRs_cache_characterization_witness :
    LoadPTRs (singleA [203, 0, 113, 5]) tptr rngZ =
      Except.ok (withPTRs [203, 0, 113, 5] [("203.0.113.5", "host.example.")],
        [mkPTRQuery "5.113.0.203.in-addr.arpa." 0]) := by
  have h := loadPTRs_cache_characterization tptr rngZ [203, 0, 113, 5] (by decide)
  exact h.trans (by rfl)

/-! ## C7: PTR exchange errors are skipped, never propagated -/

theorem reverseAddr_of_valid (addr : List Nat)
    (h : (addr.length == 4 || addr.length == 16) = true) :
    ∃ q, reverseAddr addr = some q := by
  have h2 : addr.length = 4 ∨ addr.length = 16 := by simpa using h
  rcases h2 with h4 | h16
  · exact ⟨reverseIPv4Name addr, reverseAddr_len4 addr h4⟩
  · cases hgo : goTo4 addr with
    | some bs => exact ⟨reverseIPv4Name bs, by simp [reverseAddr, hgo]⟩
    | none =>
      refine ⟨reverseIPv6Name addr, ?_⟩
      simp [reverseAddr, hgo, h16]

theorem loadPTRsAnswers_allfail (t : ExchangeFn) (rng : Nat → Nat)
    (hfail : ∀ m, ∃ s, t m = Except.error s) :
    ∀ (answers : List DNSRR) (st : PTRState),
      answers.all validAddrRR = true →
      ∃ ms : List Msg,
        loadPTRsAnswers t rng answers st =
          Except.ok { ptrs := st.ptrs, trace := st.trace ++ ms,
                      rngIdx := st.rngIdx + ms.length } ∧
        ms.length = (answers.filter isAddrRR).length := by
  intro answers
  induction answers with
  | nil =>
    intro st _
    exact ⟨[], by simp [loadPTRsAnswers], by simp⟩
  | cons rr rest ih =>
    intro st hval
    have hsplit : validAddrRR rr = true ∧ rest.all validAddrRR = true := by
      simpa [List.all_cons] using hval
    obtain ⟨hvrr, hvrest⟩ := hsplit
    cases rr with
    | a addr =>
      obtain ⟨q, hq⟩ := reverseAddr_of_valid addr (by simpa [validAddrRR] using hvrr)
      obtain ⟨s, hs⟩ := hfail (mkPTRQuery q (rng st.rngIdx))
      obtain ⟨ms, hms, hlen⟩ := ih
        { st with
          trace := st.trace ++ [mkPTRQuery q (rng st.rngIdx)],
          rngIdx := st.rngIdx + 1 } hvrest
      refine ⟨mkPTRQuery q (rng st.rngIdx) :: ms, ?_, ?_⟩
      · simp only [loadPTRsAnswers, loadPTRsRR, loadPTRsAddr, hq, hs]
        rw [hms]
        simp [List.append_assoc, Nat.add_comm, Nat.add_assoc, Nat.add_left_comm]
      · simp [isAddrRR, hlen]
    | aaaa addr =>
      obtain ⟨q, hq⟩ := reverseAddr_of_valid addr (by simpa [validAddrRR] using hvrr)
      obtain ⟨s, hs⟩ := hfail (mkPTRQuery q (rng st.rngIdx))
      obtain ⟨ms, hms, hlen⟩ := ih
        { st with
          trace := st.trace ++ [mkPTRQuery q (rng st.rngIdx)],
          rngIdx := st.rngIdx + 1 } hvrest
      refine ⟨mkPTRQuery q (rng st.rngIdx) :: ms, ?_, ?_⟩
      · simp only [loadPTRsAnswers, loadPTRsRR, loadPTRsAddr, hq, hs]
        rw [hms]
        simp [List.append_assoc, Nat.add_comm, Nat.add_assoc, Nat.add_left_comm]
      · simp [isAddrRR, hlen]
    | ptr target =>
      obtain ⟨ms, hms, hlen⟩ := ih st hvrest
      refine ⟨ms, ?_, ?_⟩
      · simp only [loadPTRsAnswers, loadPTRsRR]
        rw [hms]
      · simp [isAddrRR, hlen]
    | opt o =>
      obtain ⟨ms, hms, hlen⟩ := ih st hvrest
      refine ⟨ms, ?_, ?_⟩
      · simp only [loadPTRsAnswers, loadPTRsRR]
        rw [hms]
      · simp [isAddrRR, hlen]
    | other rrtype =>
      obtain ⟨ms, hms, hlen⟩ := ih st hvrest
      refine ⟨ms, ?_, ?_⟩
      · simp only [loadPTRsAnswers, loadPTRsRR]
        rw [hms]
      · simp [isAddrRR, hlen]

theorem loadPTRsReplies_allfail (t : ExchangeFn) (rng : Nat → Nat)
    (hfail : ∀ m, ∃ s, t m = Except.error s) :
    ∀ (rs : List (Option Msg)) (st : PTRState),
      rs.all Option.isSome = true → validReplies rs = true →
      ∃ ms : List Msg,
        loadPTRsReplies t rng rs st =
          Except.ok { ptrs := st.ptrs, trace := st.trace ++ ms,
                      rngIdx := st.rngIdx + ms.length } ∧
        ms.length = countAddrRRs rs := by
  intro rs
  induction rs with
  | nil =>
    intro st _ _
    exact ⟨[], by simp [loadPTRsReplies], by simp [countAddrRRs]⟩
  | cons r rest ih =>
    intro st hnn hval
    have hsplit : r.isSome = true ∧ rest.all Option.isSome = true := by
      simpa [List.all_cons] using hnn
    obtain ⟨hr, hrest⟩ := hsplit
    cases r with
    | none => exact absurd hr (by simp)
    | some m =>
      have hsplit2 : m.Answer.all validAddrRR = true ∧ validReplies rest = true := by
        simpa [validReplies] using hval
      obtain ⟨hvm, hvrest⟩ := hsplit2
      obtain ⟨ms1, hms1, hlen1⟩ := loadPTRsAnswers_allfail t rng hfail m.Answer st hvm
      obtain ⟨ms2, hms2, hlen2⟩ := ih
        { ptrs := st.ptrs, trace := st.trace ++ ms1, rngIdx := st.rngIdx + ms1.length }
        hrest hvrest
      refine ⟨ms1 ++ ms2, ?_, ?_⟩
      · simp only [loadPTRsReplies, hms1]
        rw [hms2]
        simp [List.append_assoc, Nat.add_comm, Nat.add_assoc, Nat.add_left_comm]
      · simp only [countAddrRRs, List.map_cons, List.sum_cons, List.length_append,
          hlen1, hlen2]

/-- C7: on an entry whose replies are all non-nil (with library-shaped
addresses) and a transport whose every Exchange call fails, LoadPTRs
completes normally: it still issues one PTR query per A/AAAA answer
(continuing past each error), leaves the PTR cache exactly as
initialised — no entry for any failed address — and propagates no
error to the caller. -/
theorem loadPTRs_exchange_error_best_effort (e : Entry) (t : ExchangeFn) (rng : Nat → Nat)
    (hnn : e.Replies.all Option.isSome = true)
    (hval : validReplies e.Replies = true)
    (hfail : ∀ m, ∃ s, t m = Except.error s) :
    ∃ tr, LoadPTRs e t rng = Except.ok ({ e with PTRs := some (e.PTRs.getD []) }, tr) ∧
      tr.length = countAddrRRs e.Replies := by
  obtain ⟨ms, hms, hlen⟩ := loadPTRsReplies_allfail t rng hfail e.Replies
    { ptrs := e.PTRs.getD [], trace := [], rngIdx := 0 } hnn hval
  refine ⟨ms, ?_, hlen⟩
  simp [LoadPTRs, hms]

/-- C7 witness: one A-record reply against an always-failing transport
leaves the cache empty, raises nothing, and still issued the lookup. -/
theorem loadPTRs_exchange_error_best_effort_witness :
    ∃ tr, LoadPTRs (singleA [203, 0, 113, 5]) tfail rngZ =
        Except.ok (withPTRs [203, 0, 113, 5] [], tr) ∧ tr.length = 1 := by
  obtain ⟨tr, h1, h2⟩ := loadPTRs_exchange_error_best_effort (singleA [203, 0, 113, 5])
    tfail rngZ (by decide) (by decide) (fun m => ⟨"connection refused", rfl⟩)
  exact ⟨tr, h1, h2.trans (by decide)⟩

/-! ## C8: the existingRRs set is not consulted by LoadPTRs -/

/-- C8 (amended): Entry declares the internal set field existingRRs, but
LoadPTRs neither consults nor updates it: the run and its Exchange trace
are unchanged under any value of the field, which is passed through
verbatim — so repeated resource records are looked up again rather than
deduplicated. -/
theorem loadPTRs_existingRRs_unused (e : Entry) (t : ExchangeFn) (rng : Nat → Nat)
    (s : List String) :
    LoadPTRs { e with existingRRs := s } t rng =
      (LoadPTRs e t rng).map (fun p => ({ p.1 with existingRRs := s }, p.2)) := by
  unfold LoadPTRs
  cases h : loadPTRsReplies t rng e.Replies
      { ptrs := e.PTRs.getD [], trace := [], rngIdx := 0 } with
  | error k => simp [h, Except.map]
  | ok st => simp [h, Except.map]

/-- C8 counterexample: an entry whose reply lists the same A record twice
makes LoadPTRs issue the identical PTR lookup twice (the same question,
one Exchange call each), and existingRRs stays empty — the record already
processed is looked up again, refuting the claimed deduplication. -/
theorem existingRRs_claim_counterexample :
    (exceptToOption (LoadPTRs e8 tfail rngZ)).map
        (fun p => (p.1.existingRRs, p.2.map (fun m => m.Question)))
      = some ([], [[⟨"1.2.0.192.in-addr.arpa.", 12, 1⟩],
                   [⟨"1.2.0.192.in-addr.arpa.", 12, 1⟩]]) := by
  rfl
